import Mathlib

/-!
# Verification of the dbt documentation automation pipeline

Shallow embedding of `dbt-document-generator/dbt_doc_automation.py` and
proofs of the specified properties of its bounded-concurrency generation
pipeline.

The embedding models:
* `ModelInfo` — the per-model record extracted from `manifest.json`;
* `construct_prompt` — the prompt template (an f-string, embedded as
  string concatenation), including the `compiled_sql[:1000]` truncation;
* `call_llm_async` — the generation client, parameterised by the network
  outcome of its single outbound HTTP call; its Python `try/except` is
  embedded as an `Except`-valued body wrapped by a total handler, so the
  fact that the wrapper has return type `String` expresses that no
  exception escapes the boundary;
* `step_5_save_doc_blocks` — the document writer, over a functional file
  system `String → Option String` plus an I/O-fault oracle;
* `step_6_update_yaml_files` — the configuration rewriter, over structured
  YAML documents with an explicit parse outcome and write-fault flag per
  discovered file;
* `run_automation` — the orchestrator: gathers per-model units (the
  `asyncio.gather` of the source; its file-system effect is the ordered
  write trace, which is interleaving-insensitive here because each unit
  writes a single file determined by its own record), then gates the YAML
  rewrite on all units reporting success;
* a small-step transition system for the `asyncio.Semaphore(5)` discipline
  used by the generation calls.
-/

/-- Python equivalent of `s[:n]` on a `str`: Python slices by code points,
so we slice the underlying character list. -/
def str_slice_to (s : String) (n : Nat) : String :=
  String.mk (s.data.take n)

/-- Data class to store model information (`ModelInfo` in the source).
`columns` and `config` are Python dicts, embedded as association lists;
`columns` values are dicts read with `.get('data_type', 'unknown')` and
`.get('description', '')`, so the two fields are optional. -/
structure ColumnData where
  data_type : Option String
  description : Option String
deriving Repr, DecidableEq

structure ModelInfo where
  name : String
  unique_id : String
  description : String
  columns : List (String × ColumnData)
  compiled_sql : String
  depends_on : List String
  tags : List String
  config : List (String × String)
deriving Repr, DecidableEq

/-- `dep.split('.')[-1]`: the leaf name of a dependency identifier. -/
def dep_leaf (dep : String) : String :=
  (dep.splitOn (".")).getLastD ("")

/-- Minimal JSON string escaping used by `json.dumps` for the strings that
appear in the column-metadata rendering. -/
def json_escape_char (c : Char) : String :=
  if c = '\\' then ("\\\\")
  else if c = '\"' then ("\\\"")
  else if c = '\n' then ("\\n")
  else if c = '\t' then ("\\t")
  else String.mk [c]

def json_escape (s : String) : String :=
  String.join (s.data.map json_escape_char)

/-- Rendering of one `column_info` value: the inner dict
`{'data_type': ..., 'description': ...}` as `json.dumps` prints it with
`indent=2` at nesting depth one. -/
def column_entry_json (col_name : String) (col : ColumnData) : String :=
  "  \"" ++ json_escape col_name ++ "\": \x7b\n    \"data_type\": \""
    ++ json_escape (col.data_type.getD ("unknown"))
    ++ "\",\n    \"description\": \""
    ++ json_escape (col.description.getD (""))
    ++ "\"\n  \x7d"

/-- `json.dumps(column_info, indent=2)` for the two-level dict built in
`construct_prompt`. -/
def column_info_json (columns : List (String × ColumnData)) : String :=
  match columns with
  | [] => "\x7b\x7d"
  | _ =>
    "\x7b\n"
      ++ String.intercalate (",\n") (columns.map (fun p => column_entry_json p.1 p.2))
      ++ "\n\x7d"

/-- The excerpt of the compiled SQL embedded in the prompt:
`model_info.compiled_sql[:1000]` — a fixed 1000-character budget. -/
def compiled_sql_excerpt (m : ModelInfo) : String :=
  str_slice_to m.compiled_sql 1000

/-- Everything of the prompt f-string strictly before the compiled-SQL
excerpt. -/
def prompt_head (m : ModelInfo) : String :=
  "\nYou are a data documentation expert. Based on the following dbt model information from manifest.json, create comprehensive documentation in three sections:\n\n**MODEL CONTEXT:**\n- Model Name: "
    ++ m.name ++ "\n- Compiled SQL: "

/-- Everything of the prompt f-string strictly after the compiled-SQL
excerpt. -/
def prompt_tail (m : ModelInfo) : String :=
  "...  # Truncated for brevity\n- Dependencies: "
    ++ String.intercalate (", ") (m.depends_on.map dep_leaf)
    ++ "\n- Column Metadata: "
    ++ column_info_json m.columns
    ++ "\n- Tags: "
    ++ String.intercalate (", ") m.tags
    ++ "\n- Materialization: "
    ++ (((m.config.find? (fun p => p.1 == "materialized")).map Prod.snd).getD ("table"))
    ++ "\n\n**GENERATE DOCUMENTATION:**\n\n## Business Overview\nProvide a clear, non-technical explanation of what this model does, its business purpose, and how stakeholders should interpret the data. Focus on business value and use cases.\n\n## Technical Implementation\nExplain the key transformations, joins, and business logic. Highlight any complex calculations, window functions, or data quality considerations. Mention materialization strategy and refresh patterns.\n\n## Data Dictionary\nCreate a comprehensive table with:\n- Column Name\n- Data Type\n- Business Description\n- Source Table/Calculation\n- Example Values (if applicable)\n- Data Quality Notes\n\nKeep language accessible while maintaining technical accuracy.\n"

/-- `construct_prompt`: the f-string of the source, embedded as the
concatenation of the part before the excerpt, the excerpt
`compiled_sql[:1000]`, and the part after it. -/
def construct_prompt (m : ModelInfo) : String :=
  prompt_head m ++ compiled_sql_excerpt m ++ prompt_tail m

/-- Outcome of the single outbound HTTP call made by `call_llm_async`:
either the client stack raised (timeout, connection failure, ...), or a
response arrived with a status code and — relevant only when the body is
inspected — the outcome of `await response.json()` followed by
`result['choices'][0]['message']['content']` (`Except.error` = malformed
body, i.e. that extraction raises). -/
inductive NetOutcome where
  | raised (msg : String)
  | response (status : Nat) (extract : Except String String)
deriving Repr

/-- The string literally returned by the source on every failure path. -/
def error_sentinel : String := "Error generating documentation"

/-- The body of the `try:` block of `call_llm_async`, as a fallible
computation: `Except.error` means an exception reached the `except`
handler. On a 200 status the content extraction is the body outcome; on
any other status the source logs and returns the sentinel normally. -/
def call_llm_try (net : NetOutcome) : Except String String :=
  match net with
  | .raised e => .error e
  | .response status extract =>
    if status == 200 then extract
    else .ok error_sentinel

/-- `call_llm_async`: the `try/except` wrapper. Total in `String`: no
exception propagates past this boundary; every failure becomes the
sentinel string. The prompt is the request payload; the response is
already encoded in `net`. -/
def call_llm_async (net : NetOutcome) (prompt : String) : String :=
  match call_llm_try net with
  | .ok s => s
  | .error _ => error_sentinel

/-- Functional file system: path to file content. -/
def Fs : Type := String → Option String

/-- Overwriting write of one file (`open(path, 'w')` then `write`). -/
def set_file (fs : Fs) (p c : String) : Fs :=
  fun q => if q = p then some c else fs q

/-- I/O-fault oracle: for a path touched by an effect (`mkdir`, or
open-and-write of a file), `some e` means that effect raises `e`,
`none` means it succeeds. -/
def IoEnv : Type := String → Option String

/-- `f"{model_info.name}_doc"` — the doc-block identity derived from the
record's name. -/
def doc_block_name (m : ModelInfo) : String :=
  m.name ++ "_doc"

/-- The markdown file path `docs / f"{model_info.name}_doc.md"`. -/
def doc_file_path (m : ModelInfo) : String :=
  "docs/" ++ m.name ++ "_doc.md"

/-- The markdown content written by `step_5_save_doc_blocks`: the LLM
response wrapped in the `\x7b% docs ... %\x7d` / `\x7b% enddocs %\x7d`
delimiter pair. -/
def markdown_content (m : ModelInfo) (llm_response : String) : String :=
  "\n\x7b% docs " ++ doc_block_name m ++ " %\x7d\n" ++ llm_response
    ++ "\n\x7b% enddocs %\x7d\n"

/-- `step_5_save_doc_blocks`: ensure the `docs` directory (`mkdir`,
may raise), then write the markdown file (may raise). Any exception is
caught by the `except` handler, which returns `false` and leaves the file
system as it was; on success the file is overwritten and `true` returned. -/
def step_5_save_doc_blocks (ioe : IoEnv) (fs : Fs) (m : ModelInfo)
    (llm_response : String) : Bool × Fs :=
  match ioe ("docs") with
  | some _ => (false, fs)
  | none =>
    match ioe (doc_file_path m) with
    | some _ => (false, fs)
    | none => (true, set_file fs (doc_file_path m) (markdown_content m llm_response))

/-- One entry of a `models:` list in a configuration YAML file. `name` is
the join key (`model_config['name']`); `description` is optional because a
dict may lack the key before the tool adds it; `extra` stands for all
other keys of the entry, preserved by the rewrite. -/
structure YamlModelEntry where
  name : String
  description : Option String
  extra : List (String × String)
deriving Repr, DecidableEq

/-- A parsed configuration document: the optional `models` list
(`if 'models' in yaml_content`) and the remaining top-level keys. -/
structure YamlDoc where
  models : Option (List YamlModelEntry)
  extra : List (String × String)
deriving Repr, DecidableEq

/-- One discovered configuration file. `content` is the outcome of
`yaml.safe_load` on its current content (`Except.error` = unreadable or
unparseable — that read raises). `writeOk = false` means processing or
writing this file raises (e.g. an entry missing its `name` key, or the
write-back failing), leaving the file unchanged. -/
structure YamlFile where
  path : String
  content : Except String YamlDoc
  writeOk : Bool
deriving Repr

/-- The reference expression `f"\x7b\x7b doc('\x7bdoc_block_name\x7d') \x7d\x7d"`
installed as the new description of a matching entry. -/
def doc_ref (model_name : String) : String :=
  "\x7b\x7b doc(\x27" ++ model_name ++ "_doc\x27) \x7d\x7d"

/-- The per-entry update of `step_6_update_yaml_files`: if some record's
name matches (`next((m for m in models if m.name == model_name), None)`),
replace the description with the doc reference; otherwise leave the entry
untouched. -/
def update_entry (models : List ModelInfo) (e : YamlModelEntry) : YamlModelEntry :=
  match models.find? (fun m => m.name == e.name) with
  | some _ => ⟨e.name, some (doc_ref e.name), e.extra⟩
  | none => e

/-- The per-document update: map `update_entry` over the `models` list if
present, leave everything else unchanged. -/
def update_doc (models : List ModelInfo) (d : YamlDoc) : YamlDoc :=
  match d.models with
  | some entries => ⟨some (entries.map (update_entry models)), d.extra⟩
  | none => d

/-- The effect of one loop iteration of `step_6_update_yaml_files` on one
file, when it completes: parseable content is updated and written back. -/
def rewrite_file (models : List ModelInfo) (f : YamlFile) : YamlFile :=
  match f.content with
  | .ok d => ⟨f.path, .ok (update_doc models d), f.writeOk⟩
  | .error _ => f

/-- Result of the configuration rewrite: the returned boolean, the final
state of the discovered files, and the paths written back, in order. -/
structure Step6Out where
  ok : Bool
  files : List YamlFile
  written : List String
deriving Repr

/-- `step_6_update_yaml_files`: iterate over the discovered files in
order; every file is loaded, updated and written back. The first raised
exception (parse failure, processing failure, or write failure) aborts
the loop — files not yet reached stay untouched, files already written
stay written — and the `except` handler returns `false`; if the loop
finishes, `true`. -/
def step_6_update_yaml_files (models : List ModelInfo) :
    List YamlFile → Step6Out
  | [] => ⟨true, [], []⟩
  | f :: rest =>
    match f.content with
    | .error _ => ⟨false, f :: rest, []⟩
    | .ok d =>
      if f.writeOk then
        let f2 : YamlFile := ⟨f.path, .ok (update_doc models d), f.writeOk⟩
        let out := step_6_update_yaml_files models rest
        ⟨out.ok, f2 :: out.files, f.path :: out.written⟩
      else ⟨false, f :: rest, []⟩

/-- `process_model`: construct the prompt, call the LLM, save the doc
block; the unit's boolean is the writer's result. `net` gives the network
outcome of each record's generation request. -/
def process_model (net : ModelInfo → NetOutcome) (ioe : IoEnv) (fs : Fs)
    (m : ModelInfo) : Bool × Fs :=
  let prompt := construct_prompt m
  let llm_response := call_llm_async (net m) prompt
  step_5_save_doc_blocks ioe fs m llm_response

/-- `asyncio.gather(*tasks)`: one `process_model` unit per record, results
in record order. Each unit writes only the single file derived from its
own record, so the final file system is the same for every interleaving;
we embed the gather as the ordered fold of the units' effects. -/
def gather_units (net : ModelInfo → NetOutcome) (ioe : IoEnv) :
    List ModelInfo → Fs → List Bool × Fs
  | [], fs => ([], fs)
  | m :: ms, fs =>
    let r := process_model net ioe fs m
    let rest := gather_units net ioe ms r.2
    (r.1 :: rest.1, rest.2)

/-- What the run reports to the operator at the end: the
`"🎉 Documentation automation completed successfully!"` log line, or the
`"❌ Some models failed to process"` one. -/
inductive RunReport where
  | success
  | someModelsFailed
deriving Repr, DecidableEq

/-- Mutable state threaded through a run: the document files under
`docs/`, and the discovered configuration files. -/
structure RunState where
  docFs : Fs
  yamls : List YamlFile

/-- The core of `run_automation` (after the out-of-scope steps 1–3 have
produced the record list): gather all units; if every result is truthy,
invoke the YAML rewrite once over the full record list and report
success — the source discards the rewrite's boolean and logs the success
line unconditionally in this branch; otherwise skip the rewrite and
report failure. -/
def run_automation (net : ModelInfo → NetOutcome) (ioe : IoEnv)
    (models : List ModelInfo) (st : RunState) : RunReport × RunState :=
  let g := gather_units net ioe models st.docFs
  if g.1.all (fun b => b) then
    let out := step_6_update_yaml_files models st.yamls
    (RunReport.success, ⟨g.2, out.files⟩)
  else
    (RunReport.someModelsFailed, ⟨g.2, st.yamls⟩)

/-! ## Concurrency model of the shared semaphore

`call_llm_async` wraps its whole body — including the awaited HTTP call —
in `async with self.semaphore`, where `self.semaphore = asyncio.Semaphore(5)`
is shared across all units of a run. We model the per-unit lifecycle as a
small-step interleaving system: a unit acquires a slot only when fewer
than `semaphore_capacity` are held, keeps it for the whole time its
generation call is outstanding, and releases it when the call finishes
(successfully or not — `async with` releases on exceptions too). -/

/-- The capacity of `asyncio.Semaphore(5)` in `__init__`. -/
def semaphore_capacity : Nat := 5

/-- Lifecycle phase of one per-model unit with respect to the semaphore. -/
inductive UnitPhase where
  | pending
  | holding
  | released
deriving Repr, DecidableEq

/-- Number of units currently holding a slot — equivalently, the number of
generation calls outstanding simultaneously. -/
def count_holding : List UnitPhase → Nat
  | [] => 0
  | p :: ps => (if p = UnitPhase.holding then 1 else 0) + count_holding ps

/-- One scheduler step of the run: either a pending unit acquires a free
slot (possible only when fewer than `semaphore_capacity` are held), or a
holding unit's generation call completes and it releases its slot. -/
inductive SemStep : List UnitPhase → List UnitPhase → Prop
  | acquire (ps : List UnitPhase) (i : Nat) :
      ps.get? i = some UnitPhase.pending →
      count_holding ps < semaphore_capacity →
      SemStep ps (ps.set i UnitPhase.holding)
  | finish (ps : List UnitPhase) (i : Nat) :
      ps.get? i = some UnitPhase.holding →
      SemStep ps (ps.set i UnitPhase.released)

/-- States reachable during a run: `asyncio.gather` starts every unit in
the pending phase, then any interleaving of semaphore steps may occur. -/
inductive SemReachable : List UnitPhase → Prop
  | init (n : Nat) : SemReachable (List.replicate n UnitPhase.pending)
  | step {s s2 : List UnitPhase} :
      SemReachable s → SemStep s s2 → SemReachable s2

/-! ## Concrete sample inputs (used by witnesses) -/

/-- A concrete record, as extracted from a manifest. -/
def orders_model : ModelInfo :=
  ⟨"orders", "model.jaffle.orders", "", [("id", ⟨some ("integer"), some ("primary key")⟩)],
    "select 1", ["model.jaffle.raw_customers"], ["core"], [("materialized", "table")]⟩

/-- A record whose compiled SQL is 5000 characters long. -/
def big_sql_model : ModelInfo :=
  ⟨"big", "model.jaffle.big", "", [], String.mk (List.replicate 5000 'x'), [], [], []⟩

/-- I/O oracle under which every filesystem effect succeeds. -/
def io_all_ok : IoEnv := fun _ => none

/-- I/O oracle under which every filesystem effect raises. -/
def io_all_fail : IoEnv := fun _ => some ("disk full")

/-- The empty document file system. -/
def fs_empty : Fs := fun _ => none

/-- Network behaviour: every generation request gets a 200 response with a
well-formed body. -/
def net_ok : ModelInfo → NetOutcome :=
  fun _ => NetOutcome.response 200 (Except.ok ("Orders model documentation."))

/-- Network behaviour: every generation request gets a 500 response. -/
def net_http_500 : ModelInfo → NetOutcome :=
  fun _ => NetOutcome.response 500 (Except.error ("html error page"))

/-- A configuration entry that matches no record of the runs used below. -/
def other_entry : YamlModelEntry :=
  ⟨"other", some ("Other model"), [("meta", "x")]⟩

/-- A parsed configuration document with one matching and one
non-matching entry. -/
def orders_yaml_doc : YamlDoc :=
  ⟨some [⟨"orders", some ("Raw orders table"), [("columns", "…")]⟩, other_entry],
    [("version", "2")]⟩

/-- A healthy discovered configuration file. -/
def orders_yaml_file : YamlFile :=
  ⟨"models/schema.yml", Except.ok orders_yaml_doc, true⟩

/-- A discovered configuration file whose parse raises. -/
def bad_yaml_file : YamlFile :=
  ⟨"models/broken.yml", Except.error ("while parsing a block mapping"), true⟩

/-- A discovered configuration file with no `models` section at all. -/
def nomodels_yaml_file : YamlFile :=
  ⟨"models/sources.yml", Except.ok ⟨none, [("sources", "…")]⟩, true⟩

/-! ## Helper functions used by the proofs -/

/-- Whether one discovered file can be processed without error. -/
def file_ok (f : YamlFile) : Bool :=
  (match f.content with | .ok _ => true | .error _ => false) && f.writeOk

/-- The boolean a unit reports, which depends only on the I/O oracle (the
write either happens or raises, independently of prior file contents). -/
def unit_result (ioe : IoEnv) (m : ModelInfo) : Bool :=
  match ioe ("docs") with
  | some _ => false
  | none =>
    match ioe (doc_file_path m) with
    | some _ => false
    | none => true

/-- The write trace of one unit: the single file it writes, if any. -/
def unit_writes (net : ModelInfo → NetOutcome) (ioe : IoEnv)
    (m : ModelInfo) : List (String × String) :=
  match ioe ("docs") with
  | some _ => []
  | none =>
    match ioe (doc_file_path m) with
    | some _ => []
    | none => [(doc_file_path m, markdown_content m (call_llm_async (net m) (construct_prompt m)))]

/-- The ordered write trace of a whole gather. -/
def run_trace (net : ModelInfo → NetOutcome) (ioe : IoEnv) :
    List ModelInfo → List (String × String)
  | [] => []
  | m :: ms => unit_writes net ioe m ++ run_trace net ioe ms

/-- Apply a write trace to a file system, in order. -/
def apply_writes : List (String × String) → Fs → Fs
  | [], fs => fs
  | (p, c) :: rest, fs => apply_writes rest (set_file fs p c)

/-- The last value written to a path by a trace, if any. -/
def last_write : List (String × String) → String → Option String
  | [], _ => none
  | (p, c) :: rest, q =>
    match last_write rest q with
    | some c2 => some c2
    | none => if q = p then some c else none

/-! ## Lemmas about the semaphore transition system -/

theorem count_holding_replicate_pending (n : Nat) :
    count_holding (List.replicate n UnitPhase.pending) = 0 := by
  induction n with
  | zero => rfl
  | succ n ih => simpa [List.replicate, count_holding] using ih

theorem count_holding_set_released (ps : List UnitPhase) (i : Nat) :
    count_holding (ps.set i UnitPhase.released) ≤ count_holding ps := by
  induction ps generalizing i with
  | nil => simp [count_holding]
  | cons p ps ih =>
    cases i with
    | zero => cases p <;> simp [count_holding]
    | succ i =>
      simp only [List.set, count_holding]
      exact Nat.add_le_add_left (ih i) _

theorem count_holding_set_holding (ps : List UnitPhase) (i : Nat)
    (h : ps.get? i = some UnitPhase.pending) :
    count_holding (ps.set i UnitPhase.holding) = count_holding ps + 1 := by
  induction ps generalizing i with
  | nil => simp at h
  | cons p ps ih =>
    cases i with
    | zero =>
      simp only [List.get?] at h
      injection h with h
      subst h
      simp [count_holding]
      omega
    | succ i =>
      simp only [List.get?] at h
      simp only [List.set, count_holding]
      rw [ih i h]
      omega

/-- C3: at no point during a run are more than the limiter capacity
(5, the `asyncio.Semaphore(5)` of `__init__`) generation calls outstanding
simultaneously: in every state reachable by any interleaving of the
scheduled units, the number of units holding a semaphore slot — and a
generation call is outstanding only while its unit holds a slot — is at
most `semaphore_capacity`. -/
theorem c3_concurrency_cap (s : List UnitPhase) (h : SemReachable s) :
    count_holding s ≤ semaphore_capacity := by
  induction h with
  | init n =>
    rw [count_holding_replicate_pending]
    exact Nat.zero_le _
  | step _ hs ih =>
    cases hs with
    | acquire i hi hlt =>
      rw [count_holding_set_holding _ i hi]
      exact hlt
    | finish i hi =>
      exact Nat.le_trans (count_holding_set_released _ i) ih

/-- Witness for C3: a concrete reachable state (two units scheduled, the
first has acquired a slot) satisfies the cap. -/
theorem c3_concurrency_cap_witness :
    count_holding ((List.replicate 2 UnitPhase.pending).set 0 UnitPhase.holding)
      ≤ semaphore_capacity :=
  c3_concurrency_cap _
    (SemReachable.step (SemReachable.init 2)
      (SemStep.acquire _ 0 rfl (by decide)))

/-! ## The generation client (C4) -/

/-- C4: whenever the response status is non-success, or any transport or
protocol error occurs (the client stack raised, or the 200-response body
is malformed so content extraction raises), `call_llm_async` returns its
sentinel failure value `error_sentinel`; being total in `String` (the
`except` handler of the source), no exception propagates past this
boundary. -/
theorem c4_generation_failure_is_sentinel (net : NetOutcome) (prompt : String)
    (h : (∃ e, net = NetOutcome.raised e)
       ∨ (∃ status extract, net = NetOutcome.response status extract ∧ status ≠ 200)
       ∨ (∃ e, net = NetOutcome.response 200 (Except.error e))) :
    call_llm_async net prompt = error_sentinel := by
  rcases h with ⟨e, rfl⟩ | ⟨status, extract, rfl, hs⟩ | ⟨e, rfl⟩
  · rfl
  · simp [call_llm_async, call_llm_try, hs]
  · rfl

/-- Witness for C4: a transport error (a raised timeout) yields the
sentinel. -/
theorem c4_generation_failure_is_sentinel_witness :
    call_llm_async (NetOutcome.raised ("connection timeout")) ("prompt")
      = error_sentinel :=
  c4_generation_failure_is_sentinel _ _ (Or.inl ⟨_, rfl⟩)

/-! ## Prompt truncation (C5) -/

/-- C5: the compiled-body excerpt embedded in the generation request is
exactly `compiled_sql[:1000]`, hence capped at 1000 characters; a
5000-character `compiled_sql` yields an excerpt of exactly 1000
characters. -/
theorem c5_compiled_sql_excerpt_capped (m : ModelInfo) :
    (∃ pre post, construct_prompt m = pre ++ compiled_sql_excerpt m ++ post) ∧
    (compiled_sql_excerpt m).length ≤ 1000 ∧
    (m.compiled_sql.length = 5000 → (compiled_sql_excerpt m).length = 1000) := by
  refine ⟨⟨prompt_head m, prompt_tail m, rfl⟩, ?_, ?_⟩
  · show (m.compiled_sql.data.take 1000).length ≤ 1000
    rw [List.length_take]
    exact Nat.min_le_left _ _
  · intro h
    show (m.compiled_sql.data.take 1000).length = 1000
    have h2 : m.compiled_sql.data.length = 5000 := h
    rw [List.length_take, h2]
    omega

/-- Witness for C5: a concrete record whose compiled SQL has 5000
characters gets an excerpt of exactly 1000. -/
theorem c5_compiled_sql_excerpt_capped_witness :
    big_sql_model.compiled_sql.length = 5000 ∧
    (compiled_sql_excerpt big_sql_model).length = 1000 := by
  have h : big_sql_model.compiled_sql.length = 5000 := by
    show (List.replicate 5000 'x').length = 5000
    exact List.length_replicate _ _
  exact ⟨h, (c5_compiled_sql_excerpt_capped big_sql_model).2.2 h⟩

/-! ## The document writer (C6) -/

/-- C6: the document writer derives the artifact identity
deterministically from the record's name — it writes the file
`docs/<name>_doc.md` holding the text wrapped in the fixed
`\x7b% docs <name>_doc %\x7d … \x7b% enddocs %\x7d` delimiter pair — and
returns `true` exactly on a successful write; on any I/O failure (of the
directory creation or of the write) it returns `false` with the file
system untouched, and, being total in `Bool × Fs`, no exception escapes. -/
theorem c6_doc_writer_spec (ioe : IoEnv) (fs : Fs) (m : ModelInfo) (resp : String) :
    (ioe ("docs") = none → ioe (doc_file_path m) = none →
      step_5_save_doc_blocks ioe fs m resp
        = (true, set_file fs ("docs/" ++ m.name ++ "_doc.md")
            ("\n\x7b% docs " ++ (m.name ++ "_doc") ++ " %\x7d\n" ++ resp
              ++ "\n\x7b% enddocs %\x7d\n"))) ∧
    (ioe ("docs") = none → ioe (doc_file_path m) ≠ none →
      step_5_save_doc_blocks ioe fs m resp = (false, fs)) ∧
    (ioe ("docs") ≠ none →
      step_5_save_doc_blocks ioe fs m resp = (false, fs)) := by
  refine ⟨?_, ?_, ?_⟩
  · intro h1 h2
    unfold step_5_save_doc_blocks
    rw [h1, h2]
    rfl
  · intro h1 h2
    unfold step_5_save_doc_blocks
    rw [h1]
    cases h3 : ioe (doc_file_path m) with
    | none => exact absurd h3 h2
    | some e => rfl
  · intro h1
    unfold step_5_save_doc_blocks
    cases h3 : ioe ("docs") with
    | none => exact absurd h3 h1
    | some e => rfl

/-- Witness for C6: on the fault-free oracle the concrete record's
document is written with the derived identity and delimiters and the call
returns `true`; on the all-faulting oracle it returns `false` and leaves
the file system unchanged. -/
theorem c6_doc_writer_spec_witness :
    step_5_save_doc_blocks io_all_ok fs_empty orders_model ("Orders model documentation.")
      = (true, set_file fs_empty ("docs/" ++ orders_model.name ++ "_doc.md")
          ("\n\x7b% docs " ++ (orders_model.name ++ "_doc") ++ " %\x7d\n"
            ++ "Orders model documentation." ++ "\n\x7b% enddocs %\x7d\n")) ∧
    step_5_save_doc_blocks io_all_fail fs_empty orders_model ("Orders model documentation.")
      = (false, fs_empty) :=
  ⟨(c6_doc_writer_spec io_all_ok fs_empty orders_model _).1 rfl rfl,
   (c6_doc_writer_spec io_all_fail fs_empty orders_model _).2.2 (by simp [io_all_fail])⟩

/-! ## Behaviour of the run on a failed generation call (C1) -/

/-- C1 evaluation: with a single record whose generation call gets a
non-success (500) response, the source still creates that record's
document artifact — containing the sentinel error text as its
documentation — the unit reports success, and the configuration file is
rewritten: `run_automation` reports overall success, `docs/orders_doc.md`
exists holding the delimiter-wrapped sentinel, and the matching entry's
description has been replaced by the doc reference. -/
theorem c1_failed_generation_still_writes_and_rewrites :
    (run_automation net_http_500 io_all_ok [orders_model]
        ⟨fs_empty, [orders_yaml_file]⟩).1 = RunReport.success ∧
    (run_automation net_http_500 io_all_ok [orders_model]
        ⟨fs_empty, [orders_yaml_file]⟩).2.docFs ("docs/orders_doc.md")
      = some ("\n\x7b% docs orders_doc %\x7d\n" ++ error_sentinel
          ++ "\n\x7b% enddocs %\x7d\n") ∧
    (run_automation net_http_500 io_all_ok [orders_model]
        ⟨fs_empty, [orders_yaml_file]⟩).2.yamls
      = [⟨"models/schema.yml",
          Except.ok ⟨some [⟨"orders", some (doc_ref ("orders")), [("columns", "…")]⟩,
            other_entry], [("version", "2")]⟩, true⟩] :=
  ⟨rfl, rfl, rfl⟩

/-! ## Reporting of the run when the rewrite fails (C2) -/

/-- C2 evaluation: when every per-record unit succeeds but the
configuration rewrite fails (here: a discovered file whose parse raises),
the source still reports the run as successful — `run_automation` logs the
success line unconditionally in the all-units-succeeded branch, discarding
the `false` returned by `step_6_update_yaml_files`. -/
theorem c2_success_reported_despite_rewrite_failure :
    (run_automation net_ok io_all_ok [orders_model]
        ⟨fs_empty, [bad_yaml_file]⟩).1 = RunReport.success ∧
    (step_6_update_yaml_files [orders_model] [bad_yaml_file]).ok = false :=
  ⟨rfl, rfl⟩

/-! ## Lemmas about the configuration rewriter -/

theorem step6_ok_iff (models : List ModelInfo) (files : List YamlFile) :
    (step_6_update_yaml_files models files).ok = true
      ↔ ∀ f ∈ files, file_ok f = true := by
  induction files with
  | nil => simp [step_6_update_yaml_files]
  | cons f rest ih =>
    cases hc : f.content with
    | error e =>
      simp only [step_6_update_yaml_files, hc]
      simp [file_ok, hc]
    | ok d =>
      cases hw : f.writeOk with
      | false =>
        simp only [step_6_update_yaml_files, hc, hw]
        simp [file_ok, hc, hw]
      | true =>
        simp only [step_6_update_yaml_files, hc, hw, if_true]
        simp [file_ok, hc, hw, ih]

theorem step6_fail_at (models : List ModelInfo) (pre : List YamlFile)
    (f : YamlFile) (suf : List YamlFile)
    (hpre : ∀ g ∈ pre, file_ok g = true) (hf : file_ok f = false) :
    (step_6_update_yaml_files models (pre ++ f :: suf)).ok = false ∧
    (step_6_update_yaml_files models (pre ++ f :: suf)).files
      = pre.map (rewrite_file models) ++ f :: suf := by
  induction pre with
  | nil =>
    cases hc : f.content with
    | error e => simp [step_6_update_yaml_files, hc]
    | ok d =>
      have hw : f.writeOk = false := by
        simpa [file_ok, hc] using hf
      simp [step_6_update_yaml_files, hc, hw]
  | cons g pre ih =>
    have hg : file_ok g = true := hpre g (by simp)
    obtain ⟨d, hd⟩ : ∃ d, g.content = Except.ok d := by
      cases hgc : g.content with
      | error e => simp [file_ok, hgc] at hg
      | ok d => exact ⟨d, rfl⟩
    have hw : g.writeOk = true := by
      simpa [file_ok, hd] using hg
    have ih2 := ih (fun x hx => hpre x (by simp [hx]))
    simp only [List.cons_append, step_6_update_yaml_files, hd, hw, if_true]
    simp [ih2.1, ih2.2, rewrite_file, hd, hw]

theorem step6_success_out (models : List ModelInfo) (files : List YamlFile)
    (h : (step_6_update_yaml_files models files).ok = true) :
    (step_6_update_yaml_files models files).files = files.map (rewrite_file models) ∧
    (step_6_update_yaml_files models files).written = files.map (fun f => f.path) := by
  induction files with
  | nil => simp [step_6_update_yaml_files]
  | cons f rest ih =>
    cases hc : f.content with
    | error e => simp [step_6_update_yaml_files, hc] at h
    | ok d =>
      cases hw : f.writeOk with
      | false => simp [step_6_update_yaml_files, hc, hw] at h
      | true =>
        simp only [step_6_update_yaml_files, hc, hw, if_true] at h ⊢
        have ih2 := ih h
        simp [ih2.1, ih2.2, rewrite_file, hc, hw]

theorem step6_files_rel (models : List ModelInfo) (files : List YamlFile) :
    List.Forall₂ (fun f f2 => f2 = f ∨ f2 = rewrite_file models f) files
      (step_6_update_yaml_files models files).files := by
  induction files with
  | nil => exact List.Forall₂.nil
  | cons f rest ih =>
    cases hc : f.content with
    | error e =>
      simp only [step_6_update_yaml_files, hc]
      exact List.forall₂_same.mpr (fun x _ => Or.inl rfl)
    | ok d =>
      cases hw : f.writeOk with
      | false =>
        simp only [step_6_update_yaml_files, hc, hw]
        exact List.forall₂_same.mpr (fun x _ => Or.inl rfl)
      | true =>
        simp only [step_6_update_yaml_files, hc, hw, if_true]
        exact List.Forall₂.cons (Or.inr (by simp [rewrite_file, hc, hw])) ih

theorem forall2_get {α β : Type} {r : α → β → Prop} {l1 : List α} {l2 : List β}
    (h : List.Forall₂ r l1 l2) :
    ∀ (i : Nat) (a : α) (b : β), l1.get? i = some a → l2.get? i = some b → r a b := by
  induction h with
  | nil => intro i a b h1 _; simp at h1
  | cons hr _ ih =>
    intro i a b h1 h2
    cases i with
    | zero =>
      simp only [List.get?] at h1 h2
      injection h1 with h1
      injection h2 with h2
      subst h1; subst h2
      exact hr
    | succ i => exact ih i a b h1 h2

/-! ## The configuration rewrite on failure (C7) -/

/-- C7: the rewrite returns `true` iff every discovered file is processed
without error; and if one file fails (parse or write) while all files
before it succeeded, the call returns `false`, every file before the
failure remains rewritten (no rollback), and the failing file and those
after it keep their original content. -/
theorem c7_rewrite_failure_spec (models : List ModelInfo) (files : List YamlFile) :
    ((step_6_update_yaml_files models files).ok = true
        ↔ ∀ f ∈ files, file_ok f = true) ∧
    (∀ pre f suf, files = pre ++ f :: suf →
      (∀ g ∈ pre, file_ok g = true) → file_ok f = false →
      (step_6_update_yaml_files models files).ok = false ∧
      (step_6_update_yaml_files models files).files
        = pre.map (rewrite_file models) ++ f :: suf) := by
  refine ⟨step6_ok_iff models files, ?_⟩
  intro pre f suf heq hpre hf
  subst heq
  exact step6_fail_at models pre f suf hpre hf

/-- Witness for C7: a healthy file followed by an unparseable one — the
call returns `false`, the first file stays rewritten, the bad one is
unchanged. -/
theorem c7_rewrite_failure_spec_witness :
    (step_6_update_yaml_files [orders_model] [orders_yaml_file, bad_yaml_file]).ok
      = false ∧
    (step_6_update_yaml_files [orders_model] [orders_yaml_file, bad_yaml_file]).files
      = [rewrite_file [orders_model] orders_yaml_file] ++ bad_yaml_file :: [] :=
  (c7_rewrite_failure_spec [orders_model] [orders_yaml_file, bad_yaml_file]).2
    [orders_yaml_file] bad_yaml_file [] rfl
    (by intro g hg; rw [List.mem_singleton] at hg; subst hg; rfl) rfl

/-! ## Non-matching entries are untouched (C8) -/

/-- C8: for every entry of every discovered configuration file, if the
entry's name matches no record of the run, then at its position in that
file after the rewrite the entry is unchanged — in particular its
description field is the original one. Stated positionally: whatever the
rewrite did to the file (left it alone, or updated and rewrote it), the
entry list of the resulting document holds the original entry at the same
index. -/
theorem c8_nonmatching_entry_preserved
    (models : List ModelInfo) (files : List YamlFile) (i : Nat) (f f2 : YamlFile)
    (d d2 : YamlDoc) (es es2 : List YamlModelEntry) (j : Nat) (e : YamlModelEntry)
    (hf : files.get? i = some f)
    (hf2 : (step_6_update_yaml_files models files).files.get? i = some f2)
    (hd : f.content = Except.ok d) (hd2 : f2.content = Except.ok d2)
    (hes : d.models = some es) (hes2 : d2.models = some es2)
    (he : es.get? j = some e)
    (hnm : ∀ mo ∈ models, ¬ mo.name = e.name) :
    es2.get? j = some e := by
  have hfind : models.find? (fun mo => mo.name == e.name) = none := by
    rw [List.find?_eq_none]
    intro mo hmo
    simpa using hnm mo hmo
  have hrel := forall2_get (step6_files_rel models files) i f f2 hf hf2
  cases hrel with
  | inl h =>
    subst h
    rw [hd] at hd2
    injection hd2 with hdd
    subst hdd
    rw [hes] at hes2
    injection hes2 with hee
    subst hee
    exact he
  | inr h =>
    subst h
    rw [rewrite_file, hd] at hd2
    injection hd2 with hdd
    rw [← hdd, update_doc, hes] at hes2
    injection hes2 with hee
    rw [← hee, List.get?_map, he]
    simp [update_entry, hfind]

/-- Witness for C8: in the concrete run over `orders_yaml_file`, the
non-matching entry `other` sits unchanged at index 1 of the rewritten
entry list. -/
theorem c8_nonmatching_entry_preserved_witness :
    (List.map (update_entry [orders_model])
        [⟨"orders", some ("Raw orders table"), [("columns", "…")]⟩, other_entry]).get? 1
      = some other_entry :=
  c8_nonmatching_entry_preserved [orders_model] [orders_yaml_file] 0
    orders_yaml_file (rewrite_file [orders_model] orders_yaml_file)
    orders_yaml_doc (update_doc [orders_model] orders_yaml_doc)
    [⟨"orders", some ("Raw orders table"), [("columns", "…")]⟩, other_entry]
    (List.map (update_entry [orders_model])
      [⟨"orders", some ("Raw orders table"), [("columns", "…")]⟩, other_entry])
    1 other_entry rfl rfl rfl rfl rfl rfl rfl (by decide)

/-! ## Every discovered file is written back (C10) -/

/-- C10: on the success path the rewrite writes back every discovered
configuration file, in discovery order — including files with no matching
entry and files with no models section at all (their re-serialized content
is just unchanged) — and the resulting contents are exactly the per-file
update applied to every file. -/
theorem c10_rewrite_writes_every_file (models : List ModelInfo)
    (files : List YamlFile)
    (h : (step_6_update_yaml_files models files).ok = true) :
    (step_6_update_yaml_files models files).written
      = files.map (fun f => f.path) ∧
    (step_6_update_yaml_files models files).files
      = files.map (rewrite_file models) :=
  ⟨(step6_success_out models files h).2, (step6_success_out models files h).1⟩

/-- Witness for C10: with a matching file and a file having no models
section, both paths are written. -/
theorem c10_rewrite_writes_every_file_witness :
    (step_6_update_yaml_files [orders_model]
        [orders_yaml_file, nomodels_yaml_file]).written
      = ["models/schema.yml", "models/sources.yml"] :=
  (c10_rewrite_writes_every_file [orders_model]
    [orders_yaml_file, nomodels_yaml_file] rfl).1

/-! ## Lemmas for run idempotence -/

theorem process_model_fst (net : ModelInfo → NetOutcome) (ioe : IoEnv)
    (fs : Fs) (m : ModelInfo) :
    (process_model net ioe fs m).1 = unit_result ioe m := by
  unfold process_model step_5_save_doc_blocks unit_result
  cases h1 : ioe ("docs") with
  | some e => rfl
  | none =>
    cases h2 : ioe (doc_file_path m) with
    | some e => rfl
    | none => rfl

theorem process_model_snd (net : ModelInfo → NetOutcome) (ioe : IoEnv)
    (fs : Fs) (m : ModelInfo) :
    (process_model net ioe fs m).2 = apply_writes (unit_writes net ioe m) fs := by
  unfold process_model step_5_save_doc_blocks unit_writes
  cases h1 : ioe ("docs") with
  | some e => rfl
  | none =>
    cases h2 : ioe (doc_file_path m) with
    | some e => rfl
    | none => rfl

theorem gather_units_fst (net : ModelInfo → NetOutcome) (ioe : IoEnv) :
    ∀ (ms : List ModelInfo) (fs : Fs),
      (gather_units net ioe ms fs).1 = ms.map (unit_result ioe) := by
  intro ms
  induction ms with
  | nil => intro fs; rfl
  | cons m ms ih =>
    intro fs
    simp [gather_units, process_model_fst, ih]

theorem apply_writes_append (u v : List (String × String)) (fs : Fs) :
    apply_writes (u ++ v) fs = apply_writes v (apply_writes u fs) := by
  induction u generalizing fs with
  | nil => rfl
  | cons pc u ih =>
    obtain ⟨p, c⟩ := pc
    simp [apply_writes, ih]

theorem gather_units_snd (net : ModelInfo → NetOutcome) (ioe : IoEnv) :
    ∀ (ms : List ModelInfo) (fs : Fs),
      (gather_units net ioe ms fs).2 = apply_writes (run_trace net ioe ms) fs := by
  intro ms
  induction ms with
  | nil => intro fs; rfl
  | cons m ms ih =>
    intro fs
    show (gather_units net ioe (m :: ms) fs).2
      = apply_writes (unit_writes net ioe m ++ run_trace net ioe ms) fs
    rw [apply_writes_append]
    simp [gather_units, ih, process_model_snd]

theorem apply_writes_last (w : List (String × String)) (fs : Fs) (q : String) :
    apply_writes w fs q
      = match last_write w q with
        | some c => some c
        | none => fs q := by
  induction w generalizing fs with
  | nil => rfl
  | cons pc rest ih =>
    obtain ⟨p, c⟩ := pc
    show apply_writes rest (set_file fs p c) q = _
    rw [ih]
    cases h : last_write rest q with
    | some c2 => simp [last_write, h]
    | none =>
      simp only [last_write, h, set_file]
      by_cases hqp : q = p <;> simp [hqp]

theorem apply_writes_idem (w : List (String × String)) (fs : Fs) :
    apply_writes w (apply_writes w fs) = apply_writes w fs := by
  funext q
  rw [apply_writes_last, apply_writes_last]
  cases h : last_write w q <;> rfl

theorem update_entry_idem (models : List ModelInfo) (e : YamlModelEntry) :
    update_entry models (update_entry models e) = update_entry models e := by
  cases h : models.find? (fun mo => mo.name == e.name) with
  | none => simp [update_entry, h]
  | some mo => simp [update_entry, h]

theorem update_doc_idem (models : List ModelInfo) (d : YamlDoc) :
    update_doc models (update_doc models d) = update_doc models d := by
  cases h : d.models with
  | none => simp [update_doc, h]
  | some es =>
    simp only [update_doc, h]
    simp [List.map_map, Function.comp_def, update_entry_idem]

theorem step6_idem (models : List ModelInfo) :
    ∀ files, step_6_update_yaml_files models
        (step_6_update_yaml_files models files).files
      = step_6_update_yaml_files models files := by
  intro files
  induction files with
  | nil => rfl
  | cons f rest ih =>
    cases hc : f.content with
    | error e => simp [step_6_update_yaml_files, hc]
    | ok d =>
      cases hw : f.writeOk with
      | false => simp [step_6_update_yaml_files, hc, hw]
      | true =>
        simp only [step_6_update_yaml_files, hc, hw, if_true]
        simp [step_6_update_yaml_files, ih, update_doc_idem, hw]

/-! ## Idempotence of the run (C9) -/

/-- C9: running the pipeline twice with identical input records, an
identical deterministic generation outcome per record, and an identical
I/O-fault oracle produces the very same outcome and final state as running
it once: every document artifact is overwritten with byte-identical
content, and the configuration files after the second run are identical to
those after the first. -/
theorem c9_run_idempotent (net : ModelInfo → NetOutcome) (ioe : IoEnv)
    (models : List ModelInfo) (st : RunState) :
    run_automation net ioe models (run_automation net ioe models st).2
      = run_automation net ioe models st := by
  unfold run_automation
  simp only [gather_units_fst, gather_units_snd]
  by_cases h : (models.map (unit_result ioe)).all (fun b => b) = true
  · simp [h, apply_writes_idem, step6_idem]
  · simp only [Bool.not_eq_true] at h
    simp [h, apply_writes_idem]
